import Mathlib

/-!
Verification of the self-update mechanism of `launcher.py`
(BlossomSakuraLauncher).

The update subsystem lives in the `UpdateManager` class.  Pure logic
(`compare_versions`) is embedded directly; the effectful operations
(`should_check_update`, `update_last_check`, `check_for_updates`,
`create_backup`, `apply_update`, `restore_backup`, `cleanup_temp_files`)
are embedded as pure functions over an explicit model of the relevant
state (local files, emitted Qt signals, and the outcomes of the network
and filesystem calls, which are passed in as parameters).  Emitted
signals and file writes are recorded as an ordered `List Action`, so
claims about "exactly one event" or "write before emit" become claims
about that trace.
-/

namespace Launcher

/-- `VERSION` constant of `launcher.py` (line 20). -/
def VERSION : String := "0.0.7"

/-- `UPDATE_SERVER` constant of `launcher.py` (line 21). -/
def UPDATE_SERVER : String := "https://raw.githubusercontent.com/Plxgio/SakuraLauncher/master/updates/"

/-- `CHECK_INTERVAL` constant of `launcher.py` (line 24), in seconds.
Timestamps (Python floats from `datetime.now().timestamp()`) are modelled
as rationals. -/
def CHECK_INTERVAL : ℚ := 3600

/-! ### compare_versions (launcher.py lines 126-143) -/

/-- Python `v.split('.')` on the underlying character list: the segments
between the dots, in order; adjacent dots and leading/trailing dots give
empty segments, and the empty string gives one empty segment. -/
def splitOnDot : List Char → List (List Char)
  | [] => [[]]
  | c :: rest =>
    if c = '.' then [] :: splitOnDot rest
    else
      match splitOnDot rest with
      | seg :: segs => (c :: seg) :: segs
      | [] => [[c]]

/-- Value of a decimal digit character. -/
def digitVal (c : Char) : Nat := c.toNat - 48

def digitsToNatAux : List Char → Nat → Option Nat
  | [], acc => some acc
  | c :: rest, acc =>
    if c.isDigit then digitsToNatAux rest (10 * acc + digitVal c) else none

/-- A non-empty all-digit character list as a number, else `none`. -/
def digitsToNat : List Char → Option Nat
  | [] => none
  | c :: rest => digitsToNatAux (c :: rest) 0

/-- Python `int(s)`: an optional leading `-` followed by decimal digits;
anything else raises `ValueError`, modelled as `none`.  (The exotic inputs
Python's `int` additionally tolerates — surrounding whitespace, a leading
`+`, underscores between digits — do not occur in dotted-numeric version
strings and are not modelled.) -/
def pyInt : List Char → Option Int
  | '-' :: rest => (digitsToNat rest).map (fun n => -(n : Int))
  | s => (digitsToNat s).map (fun n => (n : Int))

/-- `list(map(int, ...))` over the segments: Python's `map` consumes the
segments left to right and `int` raises at the first bad one, modelled as
`none` for the whole list. -/
def parseParts : List (List Char) → Option (List Int)
  | [] => some []
  | s :: rest =>
    match pyInt s, parseParts rest with
    | some n, some ns => some (n :: ns)
    | _, _ => none

/-- `list(map(int, v.split('.')))`, as done at lines 128-129 of
`launcher.py`. -/
def parseVersion (v : String) : Option (List Int) :=
  parseParts (splitOnDot v.data)

/-- The comparison loop of `compare_versions` (lines 137-143): walk both
lists in lockstep, return 1 / -1 at the first differing position, 0 when
all positions agree.  The loop runs over two equal-length lists; the
catch-all arm 0 mirrors the fall-through `return 0`. -/
def cmpParts : List Int → List Int → Int
  | a :: as, b :: bs => if a > b then 1 else if a < b then -1 else cmpParts as bs
  | _, _ => 0

/-- The padding (the two `while` loops, lines 132-135: first pad `v1_parts`
up to the length of `v2_parts`, then pad `v2_parts` up to the length of the
already-padded `v1_parts`) followed by the comparison loop. -/
def cmpPadded (p1 p2 : List Int) : Int :=
  let q1 := p1 ++ List.replicate (p2.length - p1.length) (0 : Int)
  let q2 := p2 ++ List.replicate (q1.length - p2.length) (0 : Int)
  cmpParts q1 q2

/-- `UpdateManager.compare_versions(v1, v2)`.  The two `int` parses happen
first (a `ValueError` there propagates to the caller, modelled as `none`);
then padding and the positional loop. -/
def compare_versions (v1 v2 : String) : Option Int :=
  match parseVersion v1, parseVersion v2 with
  | some p1, some p2 => some (cmpPadded p1 p2)
  | _, _ => none

lemma compare_versions_eq_some (v1 v2 : String) (p1 p2 : List Int)
    (h1 : parseVersion v1 = some p1) (h2 : parseVersion v2 = some p2) :
    compare_versions v1 v2 = some (cmpPadded p1 p2) := by
  unfold compare_versions
  rw [h1, h2]

/-- Right-pad a list with zeros up to length `n`. -/
def padTo (l : List Int) (n : Nat) : List Int :=
  l ++ List.replicate (n - l.length) (0 : Int)

lemma padTo_length (l : List Int) (n : Nat) (h : l.length ≤ n) :
    (padTo l n).length = n := by
  simp [padTo]
  omega

lemma cmpPadded_eq_pad (p1 p2 : List Int) :
    cmpPadded p1 p2 =
      cmpParts (padTo p1 (max p1.length p2.length))
               (padTo p2 (max p1.length p2.length)) := by
  unfold cmpPadded padTo
  simp only [List.length_append, List.length_replicate]
  have hb : p1.length + (p2.length - p1.length) - p2.length
      = max p1.length p2.length - p2.length := by omega
  have ha : p2.length - p1.length = max p1.length p2.length - p1.length := by omega
  rw [hb, ha]

lemma cmpParts_self : ∀ a : List Int, cmpParts a a = 0 := by
  intro a
  induction a with
  | nil => rfl
  | cons x xs ih => simp [cmpParts, lt_irrefl, ih]

lemma cmpParts_swap : ∀ a b : List Int, cmpParts b a = -cmpParts a b := by
  intro a
  induction a with
  | nil => intro b; cases b <;> simp [cmpParts]
  | cons x xs ih =>
    intro b
    cases b with
    | nil => simp [cmpParts]
    | cons y ys =>
      rcases lt_trichotomy x y with h | h | h
      · simp [cmpParts, gt_iff_lt, h, h.asymm]
      · subst h
        simpa [cmpParts, lt_irrefl] using ih ys
      · simp [cmpParts, gt_iff_lt, h, h.asymm]

lemma cmpPadded_swap (p1 p2 : List Int) : cmpPadded p2 p1 = -cmpPadded p1 p2 := by
  rw [cmpPadded_eq_pad, cmpPadded_eq_pad, max_comm p2.length p1.length]
  exact cmpParts_swap _ _

lemma cmpPadded_self (p : List Int) : cmpPadded p p = 0 := by
  unfold cmpPadded
  simp [cmpParts_self]

/-- Spec-side strict lexicographic order on integer sequences: true iff the
first differing position is smaller on the left. -/
def lexLtSpec : List Int → List Int → Bool
  | [], [] => false
  | [], _ :: _ => true
  | _ :: _, [] => false
  | a :: as, b :: bs => a < b || (a == b && lexLtSpec as bs)

/-- Modelled from the spec's words (§4.1): right-pad the shorter sequence
with zeros to equal length, then return 0 when the padded sequences are
equal, -1 when the left one is lexicographically smaller, 1 otherwise. -/
def compareSpec (p1 p2 : List Int) : Int :=
  if padTo p1 (max p1.length p2.length) = padTo p2 (max p1.length p2.length) then 0
  else if lexLtSpec (padTo p1 (max p1.length p2.length))
                    (padTo p2 (max p1.length p2.length)) then -1
  else 1

lemma cmpParts_eq_spec : ∀ a b : List Int, a.length = b.length →
    cmpParts a b = if a = b then 0 else if lexLtSpec a b then -1 else 1 := by
  intro a
  induction a with
  | nil =>
    intro b h
    cases b with
    | nil => simp [cmpParts, lexLtSpec]
    | cons y ys => simp at h
  | cons x xs ih =>
    intro b h
    cases b with
    | nil => simp at h
    | cons y ys =>
      simp only [List.length_cons, Nat.add_right_cancel_iff] at h
      rcases lt_trichotomy x y with hxy | hxy | hxy
      · have hne : x ≠ y := ne_of_lt hxy
        simp [cmpParts, gt_iff_lt, lexLtSpec, hxy, hxy.asymm, hne]
      · subst hxy
        have hL : cmpParts (x :: xs) (x :: ys) = cmpParts xs ys := by
          simp [cmpParts, lt_irrefl]
        have hR : lexLtSpec (x :: xs) (x :: ys) = lexLtSpec xs ys := by
          simp [lexLtSpec, lt_irrefl]
        rw [hL, ih ys h, hR]
        by_cases hxs : xs = ys
        · simp [hxs]
        · simp [hxs]
      · have hne : x ≠ y := (ne_of_lt hxy).symm
        have hnlt : ¬x < y := hxy.asymm
        simp [cmpParts, gt_iff_lt, lexLtSpec, hxy, hnlt, hne]

/-- Claim C2: for every pair of parseable dot-separated integer version
strings, `compare_versions` returns the lexicographic comparison of the
zero-right-padded integer sequences (1 / -1 at the first differing
position, 0 if all equal), and the spec's four concrete examples hold. -/
theorem compare_versions_correct (v1 v2 : String) (p1 p2 : List Int)
    (h1 : parseVersion v1 = some p1) (h2 : parseVersion v2 = some p2) :
    compare_versions v1 v2 = some (compareSpec p1 p2) ∧
    compare_versions "1.2.0" "1.2" = some 0 ∧
    compare_versions "1.3.0" "1.2.9" = some 1 ∧
    compare_versions "1.2" "1.2.1" = some (-1) ∧
    compare_versions "0.0.7" "0.0.7" = some 0 := by
  refine ⟨?_, by decide, by decide, by decide, by decide⟩
  rw [compare_versions_eq_some v1 v2 p1 p2 h1 h2, cmpPadded_eq_pad, compareSpec,
    cmpParts_eq_spec _ _ (by
      rw [padTo_length _ _ (le_max_left _ _), padTo_length _ _ (le_max_right _ _)])]

/-- Witness for C2 at a concrete input. -/
theorem compare_versions_correct_witness :
    compare_versions "1.0" "2.0" = some (compareSpec [1, 0] [2, 0]) :=
  (compare_versions_correct "1.0" "2.0" [1, 0] [2, 0] (by decide) (by decide)).1

/-- Claim C10: on parseable version strings `compare_versions` is
antisymmetric (`compare(a,b) = -compare(b,a)`) and reflexive
(`compare(a,a) = 0`). -/
theorem compare_versions_antisymm_refl (v1 v2 : String) (p1 p2 : List Int)
    (h1 : parseVersion v1 = some p1) (h2 : parseVersion v2 = some p2) :
    (∃ r : Int, compare_versions v1 v2 = some r ∧
       compare_versions v2 v1 = some (-r)) ∧
    compare_versions v1 v1 = some 0 := by
  constructor
  · refine ⟨cmpPadded p1 p2, ?_, ?_⟩
    · exact compare_versions_eq_some v1 v2 p1 p2 h1 h2
    · rw [compare_versions_eq_some v2 v1 p2 p1 h2 h1, cmpPadded_swap]
  · rw [compare_versions_eq_some v1 v1 p1 p1 h1 h1, cmpPadded_self]

/-- Witness for C10 at a concrete input. -/
theorem compare_versions_antisymm_refl_witness :
    compare_versions "1.2" "1.2" = some 0 :=
  (compare_versions_antisymm_refl "1.2" "1.2.0" [1, 2] [1, 2, 0]
    (by decide) (by decide)).2

/-! ### State and trace model for the effectful operations -/

/-- On-disk state of a small local file holding a value of type `α`:
missing, present but unreadable/unparsable, or present with a value. -/
inductive FileContent (α : Type) where
  | absent
  | corrupt
  | val (a : α)
deriving DecidableEq

/-- The persisted pending-update record (`update_info.json`, written at
lines 98-107 of `launcher.py`).  The `timestamp` field
(`datetime.now().isoformat()`) is modelled as the numeric time value. -/
structure UpdateInfo where
  remote_version : String
  changelog : String
  download_url : String
  files : List String
  timestamp : ℚ
deriving DecidableEq

/-- Raw JSON manifest body as the code reads it via `data.get(...)`: each
field either present or missing. -/
structure Manifest where
  version : Option String
  changelog : Option String
  download_url : Option String
  files : Option (List String)
deriving DecidableEq

/-- Outcome of `urllib.request.urlopen` + `json.loads` (lines 84-85):
a decoded JSON body, a `urllib.error.URLError`, or any other exception
(e.g. malformed JSON), each with its message. -/
inductive FetchResult where
  | ok (data : Manifest)
  | urlError (msg : String)
  | exn (msg : String)
deriving DecidableEq

/-- One observable effect of an update operation, in program order:
a Qt signal emission or a write to one of the local state files. -/
inductive Action where
  | statusChanged (s : String)
  | updateAvailable (version changelog : String)
  | updateFinished (success : Bool) (msg : String)
  | updateProgress (percent : Int)
  | writeUpdateInfo (info : UpdateInfo)
  | writeLastCheck (t : ℚ)
deriving DecidableEq

/-- True exactly on `update_available` signal emissions. -/
def isUpdateAvailable : Action → Bool
  | .updateAvailable _ _ => true
  | _ => false

/-! ### should_check_update / update_last_check (lines 50-70) -/

/-- `UpdateManager.should_check_update`: true when `last_check.txt` is
missing; on a read/parse failure the `except` returns true; otherwise true
iff the elapsed time strictly exceeds `CHECK_INTERVAL`. -/
def should_check_update (st : FileContent ℚ) (now : ℚ) : Bool :=
  match st with
  | .absent => true
  | .corrupt => true
  | .val last_check => decide (now - last_check > CHECK_INTERVAL)

/-- `UpdateManager.update_last_check`: writes the current timestamp to
`last_check.txt` (a write failure is swallowed by `except: pass`; the
successful write is modelled). -/
def update_last_check (now : ℚ) : FileContent ℚ :=
  .val now

/-- Claim C5: `should_check_update` is true with no recorded timestamp and
after any read/parse failure; it is false immediately after
`update_last_check` records the current time, and more generally while the
elapsed time does not exceed the (positive) interval; it is true again once
the elapsed time exceeds the interval. -/
theorem should_check_update_spec (now t : ℚ) :
    should_check_update .absent now = true ∧
    should_check_update .corrupt now = true ∧
    (0 : ℚ) < CHECK_INTERVAL ∧
    should_check_update (update_last_check now) now = false ∧
    (now - t ≤ CHECK_INTERVAL → should_check_update (.val t) now = false) ∧
    (CHECK_INTERVAL < now - t → should_check_update (.val t) now = true) := by
  refine ⟨rfl, rfl, by norm_num [CHECK_INTERVAL], ?_, ?_, ?_⟩
  · simp only [should_check_update, update_last_check, decide_eq_false_iff_not, not_lt,
      sub_self]
    norm_num [CHECK_INTERVAL]
  · intro h
    simp only [should_check_update, decide_eq_false_iff_not, not_lt]
    exact h
  · intro h
    simp only [should_check_update, decide_eq_true_eq]
    exact h

/-- Witness for C5 at concrete times. -/
theorem should_check_update_spec_witness :
    should_check_update (.val 0) 4000 = true :=
  (should_check_update_spec 4000 0).2.2.2.2.2 (by norm_num [CHECK_INTERVAL])

/-! ### check_for_updates (lines 72-124) -/

/-- Message of the `ValueError` raised by `int()` on a non-numeric segment
of `v` (the exact Python message text names the offending segment; only the
fact that some error message is surfaced matters here). -/
def intParseErrorMsg (v : String) : String :=
  "invalid literal for int() with base 10 in " ++ v

/-- `UpdateManager.check_for_updates(force)`.

Inputs: the `force` flag, the state of `last_check.txt`, the current time,
and the outcome of the network fetch.  Output: the boolean return value and
the ordered trace of emitted signals and file writes.

Line-by-line correspondence: the early return (74-75); the two status
emissions (77, 82); the fetch (84-85); field decoding with defaults
(87-89, 102); the remote-version status (91); the comparison (94; a
`ValueError` inside `compare_versions` falls through to the generic
`except` at 122); the newer branch (95-111: status, write of
`update_info.json`, `update_available` emission, `update_last_check`,
return True); the not-newer branch (112-117: status, `update_finished` only
when forced, `update_last_check`, return False); the two error handlers
(119-124: status, return False — note: no `update_last_check`). -/
def check_for_updates (force : Bool) (st : FileContent ℚ) (now : ℚ)
    (fetch : FetchResult) : Bool × List Action :=
  if !force && !should_check_update st now then (false, [])
  else
    let a0 : List Action :=
      [.statusChanged "🔍 Buscando actualizaciones...",
       .statusChanged ("📡 Conectando a " ++ UPDATE_SERVER)]
    match fetch with
    | .urlError m => (false, a0 ++ [.statusChanged ("⚠️ Error de conexión: " ++ m)])
    | .exn m => (false, a0 ++ [.statusChanged ("❌ Error: " ++ m)])
    | .ok data =>
      let remote_version := data.version.getD "0.0.0"
      let changelog := data.changelog.getD "Sin información de cambios"
      let download_url := data.download_url.getD ""
      let a1 := a0 ++ [.statusChanged ("🔄 Versión remota: " ++ remote_version)]
      match compare_versions remote_version VERSION with
      | none =>
        (false, a1 ++ [.statusChanged ("❌ Error: " ++ intParseErrorMsg remote_version)])
      | some c =>
        if c > 0 then
          let update_info : UpdateInfo :=
            { remote_version := remote_version, changelog := changelog,
              download_url := download_url, files := data.files.getD [],
              timestamp := now }
          (true,
           a1 ++ [.statusChanged ("🎯 ¡Nueva versión disponible! (" ++ remote_version ++ ")"),
                  .writeUpdateInfo update_info,
                  .updateAvailable remote_version changelog,
                  .writeLastCheck now])
        else
          (false,
           a1 ++ [.statusChanged "✅ Estás en la última versión"]
              ++ (if force then [.updateFinished true "Ya tienes la última versión"] else [])
              ++ [.writeLastCheck now])

lemma gate_false {force : Bool} {st : FileContent ℚ} {now : ℚ}
    (hgate : force = true ∨ should_check_update st now = true) :
    (!force && !should_check_update st now) = false := by
  rcases hgate with h | h <;> simp [h]

lemma check_urlError_eq (force : Bool) (st : FileContent ℚ) (now : ℚ) (m : String)
    (hgate : force = true ∨ should_check_update st now = true) :
    check_for_updates force st now (.urlError m) =
      (false,
       [.statusChanged "🔍 Buscando actualizaciones...",
        .statusChanged ("📡 Conectando a " ++ UPDATE_SERVER),
        .statusChanged ("⚠️ Error de conexión: " ++ m)]) := by
  unfold check_for_updates
  rw [gate_false hgate, if_neg Bool.false_ne_true]
  rfl

lemma check_exn_eq (force : Bool) (st : FileContent ℚ) (now : ℚ) (m : String)
    (hgate : force = true ∨ should_check_update st now = true) :
    check_for_updates force st now (.exn m) =
      (false,
       [.statusChanged "🔍 Buscando actualizaciones...",
        .statusChanged ("📡 Conectando a " ++ UPDATE_SERVER),
        .statusChanged ("❌ Error: " ++ m)]) := by
  unfold check_for_updates
  rw [gate_false hgate, if_neg Bool.false_ne_true]
  rfl

lemma check_parse_error_eq (force : Bool) (st : FileContent ℚ) (now : ℚ) (d : Manifest)
    (hgate : force = true ∨ should_check_update st now = true)
    (hcv : compare_versions (d.version.getD "0.0.0") VERSION = none) :
    check_for_updates force st now (.ok d) =
      (false,
       [.statusChanged "🔍 Buscando actualizaciones...",
        .statusChanged ("📡 Conectando a " ++ UPDATE_SERVER),
        .statusChanged ("🔄 Versión remota: " ++ d.version.getD "0.0.0"),
        .statusChanged ("❌ Error: " ++ intParseErrorMsg (d.version.getD "0.0.0"))]) := by
  unfold check_for_updates
  rw [gate_false hgate, if_neg Bool.false_ne_true]
  simp only []
  rw [hcv]
  rfl

lemma check_newer_eq (force : Bool) (st : FileContent ℚ) (now : ℚ) (d : Manifest) (c : Int)
    (hgate : force = true ∨ should_check_update st now = true)
    (hcv : compare_versions (d.version.getD "0.0.0") VERSION = some c)
    (h0 : 0 < c) :
    check_for_updates force st now (.ok d) =
      (true,
       [.statusChanged "🔍 Buscando actualizaciones...",
        .statusChanged ("📡 Conectando a " ++ UPDATE_SERVER),
        .statusChanged ("🔄 Versión remota: " ++ d.version.getD "0.0.0"),
        .statusChanged ("🎯 ¡Nueva versión disponible! (" ++ d.version.getD "0.0.0" ++ ")"),
        .writeUpdateInfo
          { remote_version := d.version.getD "0.0.0",
            changelog := d.changelog.getD "Sin información de cambios",
            download_url := d.download_url.getD "",
            files := d.files.getD [],
            timestamp := now },
        .updateAvailable (d.version.getD "0.0.0")
          (d.changelog.getD "Sin información de cambios"),
        .writeLastCheck now]) := by
  unfold check_for_updates
  rw [gate_false hgate, if_neg Bool.false_ne_true]
  simp only []
  rw [hcv]
  simp only []
  rw [if_pos h0]
  rfl

lemma check_not_newer_eq (force : Bool) (st : FileContent ℚ) (now : ℚ) (d : Manifest) (c : Int)
    (hgate : force = true ∨ should_check_update st now = true)
    (hcv : compare_versions (d.version.getD "0.0.0") VERSION = some c)
    (h0 : ¬0 < c) :
    check_for_updates force st now (.ok d) =
      (false,
       [.statusChanged "🔍 Buscando actualizaciones...",
        .statusChanged ("📡 Conectando a " ++ UPDATE_SERVER),
        .statusChanged ("🔄 Versión remota: " ++ d.version.getD "0.0.0"),
        .statusChanged "✅ Estás en la última versión"]
       ++ (if force then [.updateFinished true "Ya tienes la última versión"] else [])
       ++ [.writeLastCheck now]) := by
  unfold check_for_updates
  rw [gate_false hgate, if_neg Bool.false_ne_true]
  simp only []
  rw [hcv]
  simp only []
  rw [if_neg h0]
  rfl

/-- Claim C3: when the fetched manifest's version compares strictly greater
than `VERSION`, `check_for_updates` returns True and its trace contains
exactly one `update_available` emission, carrying that version and its
changelog, and the write of the pending-update record (position 4) precedes
the emission (position 5); when the version compares equal or lesser, the
trace contains zero `update_available` emissions. -/
theorem check_for_updates_events (force : Bool) (st : FileContent ℚ) (now : ℚ)
    (d : Manifest) (c : Int)
    (hgate : force = true ∨ should_check_update st now = true)
    (hcv : compare_versions (d.version.getD "0.0.0") VERSION = some c) :
    (0 < c →
      (check_for_updates force st now (.ok d)).1 = true ∧
      ((check_for_updates force st now (.ok d)).2.countP isUpdateAvailable) = 1 ∧
      (check_for_updates force st now (.ok d)).2[4]? =
        some (.writeUpdateInfo
          { remote_version := d.version.getD "0.0.0",
            changelog := d.changelog.getD "Sin información de cambios",
            download_url := d.download_url.getD "",
            files := d.files.getD [],
            timestamp := now }) ∧
      (check_for_updates force st now (.ok d)).2[5]? =
        some (.updateAvailable (d.version.getD "0.0.0")
          (d.changelog.getD "Sin información de cambios"))) ∧
    (c ≤ 0 →
      ((check_for_updates force st now (.ok d)).2.countP isUpdateAvailable) = 0) := by
  constructor
  · intro h0
    rw [check_newer_eq force st now d c hgate hcv h0]
    refine ⟨rfl, ?_, rfl, rfl⟩
    simp [isUpdateAvailable, List.countP_cons]
  · intro hle
    rw [check_not_newer_eq force st now d c hgate hcv (not_lt.2 hle)]
    cases force <;>
      simp [isUpdateAvailable, List.countP_cons, List.countP_append]

/-- Witness for C3 at a concrete input. -/
theorem check_for_updates_events_witness :
    (check_for_updates true .absent 0
      (.ok ⟨some "9.9.9", some "notas", none, none⟩)).1 = true :=
  ((check_for_updates_events true .absent 0 ⟨some "9.9.9", some "notas", none, none⟩ 1
    (Or.inl rfl) (by decide)).1 (by norm_num)).1

/-- Claim C4: a manifest version with a non-numeric segment makes
`compare_versions` signal a parse error, which the enclosing check treats
as "not newer": `check_for_updates` emits no `update_available` signal and
returns False. -/
theorem check_for_updates_nonnumeric (force : Bool) (st : FileContent ℚ) (now : ℚ)
    (d : Manifest)
    (h : ∃ seg ∈ splitOnDot ((d.version.getD "0.0.0").data), pyInt seg = none) :
    (check_for_updates force st now (.ok d)).1 = false ∧
    ∀ v c, Action.updateAvailable v c ∉ (check_for_updates force st now (.ok d)).2 := by
  obtain ⟨seg, hmem, hseg⟩ := h
  have hp : parseVersion (d.version.getD "0.0.0") = none := by
    unfold parseVersion
    generalize hl : splitOnDot ((d.version.getD "0.0.0").data) = l at hmem
    clear hl
    induction l with
    | nil => simp at hmem
    | cons s rest ih =>
      rcases List.mem_cons.1 hmem with rfl | hmem2
      · simp [parseParts, hseg]
      · unfold parseParts
        rw [ih hmem2]
        cases pyInt s <;> rfl
  have hcv : compare_versions (d.version.getD "0.0.0") VERSION = none := by
    unfold compare_versions
    rw [hp]
  by_cases hg : (!force && !should_check_update st now) = true
  · have : check_for_updates force st now (.ok d) = (false, []) := by
      unfold check_for_updates
      rw [if_pos hg]
    rw [this]
    exact ⟨rfl, by simp⟩
  · have hgate : force = true ∨ should_check_update st now = true := by
      cases hforce : force with
      | true => exact Or.inl rfl
      | false =>
        simp [hforce] at hg
        exact Or.inr hg
    rw [check_parse_error_eq force st now d hgate hcv]
    exact ⟨rfl, by simp⟩

/-- Witness for C4 at a concrete input. -/
theorem check_for_updates_nonnumeric_witness :
    (check_for_updates true .absent 0 (.ok ⟨some "1.2b", none, none, none⟩)).1 = false :=
  (check_for_updates_nonnumeric true .absent 0 ⟨some "1.2b", none, none, none⟩
    ⟨['2', 'b'], by decide, by decide⟩).1

/-- Claim C6, counterexample: a forced check whose fetch fails with a
connection error performs a fetch attempt but does not update the
last-check timestamp (the claim says every fetch attempt, successful or
not, updates it at the end of the check).  Here the attempt happens at
time 0 and `writeLastCheck 0` is absent from the trace. -/
theorem check_for_updates_error_skips_timestamp :
    (check_for_updates true .absent 0 (.urlError "timed out")).1 = false ∧
    Action.writeLastCheck 0 ∉ (check_for_updates true .absent 0 (.urlError "timed out")).2 := by
  decide

/-- Claim C6 (amended): on a check that performs a fetch, the last-check
timestamp is written at the end only when the fetch and the version
comparison complete without error — it is written in both the newer and the
not-newer outcome, and it is not written on a connection error, on any
other fetch exception, or when the fetched version fails to parse (the
compare-time `ValueError` landing in the same generic handler). -/
theorem check_for_updates_timestamp (force : Bool) (st : FileContent ℚ) (now : ℚ)
    (d : Manifest)
    (hgate : force = true ∨ should_check_update st now = true) :
    (∀ c : Int, compare_versions (d.version.getD "0.0.0") VERSION = some c →
      Action.writeLastCheck now ∈ (check_for_updates force st now (.ok d)).2) ∧
    (compare_versions (d.version.getD "0.0.0") VERSION = none →
      ∀ t, Action.writeLastCheck t ∉ (check_for_updates force st now (.ok d)).2) ∧
    (∀ m t, Action.writeLastCheck t ∉ (check_for_updates force st now (.urlError m)).2) ∧
    (∀ m t, Action.writeLastCheck t ∉ (check_for_updates force st now (.exn m)).2) := by
  refine ⟨?_, ?_, ?_, ?_⟩
  · intro c hcv
    by_cases h0 : 0 < c
    · rw [check_newer_eq force st now d c hgate hcv h0]
      simp
    · rw [check_not_newer_eq force st now d c hgate hcv h0]
      cases force <;> simp
  · intro hcv t
    rw [check_parse_error_eq force st now d hgate hcv]
    simp
  · intro m t
    rw [check_urlError_eq force st now m hgate]
    simp
  · intro m t
    rw [check_exn_eq force st now m hgate]
    simp

/-- Witness for C6's amended theorem at a concrete input. -/
theorem check_for_updates_timestamp_witness :
    Action.writeLastCheck 0 ∈
      (check_for_updates true .absent 0 (.ok ⟨some "9.9.9", none, none, none⟩)).2 :=
  (check_for_updates_timestamp true .absent 0 ⟨some "9.9.9", none, none, none⟩
    (Or.inl rfl)).1 1 (by decide)

/-- Claim C7, counterexample: with `changelog` missing from the manifest,
the surfaced changelog is the placeholder `"Sin información de cambios"`,
not the empty string the claim states. -/
theorem changelog_default_not_empty :
    Action.updateAvailable "9.9.9" "Sin información de cambios" ∈
      (check_for_updates true .absent 0 (.ok ⟨some "9.9.9", none, none, none⟩)).2 ∧
    Action.updateAvailable "9.9.9" "" ∉
      (check_for_updates true .absent 0 (.ok ⟨some "9.9.9", none, none, none⟩)).2 := by
  decide

/-- Claim C7 (amended): a syntactically valid manifest never fails solely
because optional fields are missing: with every field absent the check
decodes version `"0.0.0"`, runs to completion (reaching the not-newer
outcome and recording the last check); and the defaults are `"0.0.0"` for
`version`, the placeholder `"Sin información de cambios"` (not `""`) for
`changelog`, `""` for `download_url` and `[]` for `files`, as shown by the
pending-update record written for a version-only manifest. -/
theorem manifest_missing_field_defaults (st : FileContent ℚ) (now : ℚ) :
    check_for_updates true st now (.ok ⟨none, none, none, none⟩) =
      (false,
       [.statusChanged "🔍 Buscando actualizaciones...",
        .statusChanged ("📡 Conectando a " ++ UPDATE_SERVER),
        .statusChanged ("🔄 Versión remota: " ++ "0.0.0"),
        .statusChanged "✅ Estás en la última versión",
        .updateFinished true "Ya tienes la última versión",
        .writeLastCheck now]) ∧
    (check_for_updates true st now (.ok ⟨some "9.9.9", none, none, none⟩)).2[4]? =
      some (.writeUpdateInfo
        { remote_version := "9.9.9", changelog := "Sin información de cambios",
          download_url := "", files := [], timestamp := now }) := by
  exact ⟨rfl, rfl⟩

/-! ### create_backup (lines 179-213) -/

/-- A flat view of a directory tree: each installation-relative path maps to
the file at that path, or `none` when absent.  File bytes and the metadata
preserved by `shutil.copy2` are abstracted into an opaque content value;
directory creation (`os.makedirs`) is implicit in the flat view. -/
def FS : Type := String → Option String

/-- The hard-coded `files_to_backup` list (lines 190-195). -/
def files_to_backup : List String :=
  ["launcher.py", "assets/logo.png", "assets/fondo.png", "assets/background.png"]

/-- One iteration of the backup copy loop (lines 197-206): when the tracked
path exists in the installation, copy it into the backup at the same
relative path; otherwise leave the backup unchanged (the path is skipped). -/
def copy_step (install : FS) (bk : FS) (p : String) : FS :=
  match install p with
  | some c => fun q => if q = p then some c else bk q
  | none => bk

/-- `UpdateManager.create_backup`, as a function from the installation tree
and the pre-existing backup tree to the new backup tree: the old backup is
removed recursively and the directory recreated (lines 185-187) — hence the
fold starts from the empty tree, ignoring `oldBackup` — then each tracked
path that exists is copied in order.  (The `except` branch returning False
covers real I/O faults, which are outside this filesystem model; the
normal, exception-free run is modelled.) -/
def create_backup (install : FS) (_oldBackup : FS) : FS :=
  files_to_backup.foldl (copy_step install) (fun _ => none)

lemma foldl_copy_step (install : FS) :
    ∀ (l : List String) (acc : FS) (p : String),
      (l.foldl (copy_step install) acc) p =
        if p ∈ l ∧ (install p).isSome then install p else acc p := by
  intro l
  induction l with
  | nil =>
    intro acc p
    simp
  | cons x xs ih =>
    intro acc p
    rw [List.foldl_cons, ih]
    by_cases hmem : p ∈ xs
    · by_cases hs : (install p).isSome
      · simp [hmem, hs]
      · simp only [hmem, hs, and_false, if_false, List.mem_cons, true_or, or_true]
        unfold copy_step
        cases hx : install x with
        | none => rfl
        | some c =>
          by_cases hpx : p = x
          · subst hpx
            rw [hx] at hs
            simp at hs
          · simp [hpx]
    · by_cases hpx : p = x
      · subst hpx
        cases hx : install p with
        | some c =>
          have hs : (install p).isSome = true := by simp [hx]
          simp only [hmem, false_and, if_false, List.mem_cons, true_or, hs, and_true,
            if_true]
          unfold copy_step
          rw [hx]
          simp [hx]
        | none =>
          simp only [hmem, false_and, if_false, List.mem_cons, true_or, hx,
            Option.isSome_none, and_false]
          unfold copy_step
          rw [hx]
          simp
      · have hnotin : p ∉ x :: xs := by
          simp [hpx, hmem]
        simp only [hmem, false_and, if_false, hnotin, if_neg]
        unfold copy_step
        cases install x with
        | none => simp [hnotin]
        | some c => simp [hpx, hnotin]

/-- Claim C8: the new backup tree is exactly the restriction of the
installation tree to the tracked file list — every tracked path that exists
is copied to the same relative path, tracked paths that do not exist are
silently skipped (present as `none`, with no failure), everything
previously in the backup location is gone (the result does not depend on
`oldBackup`), and untracked paths are not backed up. -/
theorem create_backup_spec (install oldBackup : FS) (p : String) :
    create_backup install oldBackup p =
      if p ∈ files_to_backup then install p else none := by
  unfold create_backup
  rw [foldl_copy_step]
  by_cases hmem : p ∈ files_to_backup
  · by_cases hs : (install p).isSome
    · simp [hmem, hs]
    · rw [Option.not_isSome_iff_eq_none] at hs
      simp [hmem, hs]
  · simp [hmem]

/-! ### apply_update / restore_backup / cleanup_temp_files (lines 215-296) -/

/-- Name of the pending-update record file (`update_info.json`). -/
def UPDATE_INFO_FILE : String := "update_info.json"

/-- `str(e)` of the `FileNotFoundError` raised by `open` on a missing file
(the precise Python text also names the directory prefix; the constant
message stands in for it). -/
def fileNotFoundError (path : String) : String :=
  "[Errno 2] No such file or directory: " ++ path

/-- Environment of one `apply_update` run: the outcomes of every external
interaction it performs, plus the relevant starting state.

* `backupErr` — `none` when `create_backup` returns True, `some m` when it
  caught an exception with message `m` and returned False;
* `entries` — `zip_ref.namelist()` of the downloaded archive;
* `extractErr` — `some m` when opening/extracting the archive raises with
  message `m` (corrupt archive, I/O fault), `none` when every entry
  extracts;
* `cleanupOk` — whether `cleanup_temp_files` managed to delete the temp
  directory and `update_info.json` (its own exceptions are swallowed by
  `except: pass`, leaving the state unchanged);
* `updateInfo` — content of `update_info.json` at the start of the run;
* `backupDirExists`, `restoreErr` — state and outcome seen by
  `restore_backup`. -/
structure ApplyEnv where
  backupErr : Option String
  entries : List String
  extractErr : Option String
  cleanupOk : Bool
  updateInfo : Option UpdateInfo
  backupDirExists : Bool
  restoreErr : Option String
deriving DecidableEq

/-- Status emissions of the `create_backup` run inside `apply_update`
(lines 181, 208, 212), paired with its boolean result. -/
def create_backup_status (backupErr : Option String) : Bool × List Action :=
  match backupErr with
  | none =>
    (true, [.statusChanged "💾 Creando copia de seguridad...",
            .statusChanged "✅ Copia de seguridad creada"])
  | some m =>
    (false, [.statusChanged "💾 Creando copia de seguridad...",
             .statusChanged ("⚠️ Error en backup: " ++ m)])

/-- `UpdateManager.restore_backup` (lines 255-282): emits the starting
status; then either the walk raises (`restoreErr = some`) and the handler
emits the error status and returns False, or the backup directory is
walked and copied back (returns True), or it does not exist (returns
False). -/
def restore_backup (backupDirExists : Bool) (restoreErr : Option String) :
    Bool × List Action :=
  match restoreErr with
  | some m =>
    (false, [.statusChanged "🔄 Restaurando desde copia de seguridad...",
             .statusChanged ("❌ Error en restauración: " ++ m)])
  | none =>
    if backupDirExists then
      (true, [.statusChanged "🔄 Restaurando desde copia de seguridad...",
              .statusChanged "✅ Restauración completada"])
    else
      (false, [.statusChanged "🔄 Restaurando desde copia de seguridad...",
               .statusChanged "⚠️ No hay copia de seguridad disponible"])

/-- `UpdateManager.cleanup_temp_files` (lines 284-296): on success the temp
directory is removed and `update_info.json` deleted, and the status is
emitted; an exception anywhere is swallowed (`except: pass`), modelled as
leaving the state unchanged.  Returns (update-info state after, temp-dir
exists after, emitted actions). -/
def cleanup_temp_files (ok : Bool) (info : Option UpdateInfo) :
    Option UpdateInfo × Bool × List Action :=
  if ok then (none, false, [.statusChanged "🧹 Archivos temporales limpiados"])
  else (info, true, [])

/-- Per-entry progress emissions of the extraction loop (lines 230-235):
`int((i + 1) * 100 / len(file_list))` for each entry index `i`. -/
def progressEvents (n : Nat) : List Action :=
  (List.range n).map (fun i => .updateProgress (((i : Int) + 1) * 100 / (n : Int)))

/-- Result of one `apply_update` run: the returned pair (success flag and
message — the new version string on success, `str(e)` on failure), the
ordered trace, and the state of `update_info.json` and the temp directory
afterwards. -/
structure ApplyResult where
  success : Bool
  message : String
  actions : List Action
  updateInfoAfter : Option UpdateInfo
  tempDirAfter : Bool
deriving DecidableEq

/-- `UpdateManager.apply_update(update_file)` (lines 215-253).

Control flow: status (218); `create_backup` with the "Continuando sin
backup" status when it returned False (221-222); the extraction loop with
per-entry progress (225-235) — an exception there jumps to the handler;
`cleanup_temp_files` (238); the success status (240); then the re-open of
`update_info.json` (243) — **after** cleanup deleted it — to read
`remote_version` (246): when the file is gone this raises
`FileNotFoundError`, landing in the same handler.  The handler (248-253)
emits the error status, calls `restore_backup` (discarding its result) and
returns `(False, str(e))`.  When extraction raises, the entries extracted
before the failure and the skipped progress emissions are not modelled
(no claim depends on them). -/
def apply_update (env : ApplyEnv) : ApplyResult :=
  let a0 : List Action := [.statusChanged "🔄 Aplicando actualización..."]
  let bres := create_backup_status env.backupErr
  let a1 := a0 ++ bres.2 ++
    (if bres.1 then [] else [.statusChanged "⚠️ Continuando sin backup..."])
  match env.extractErr with
  | some m =>
    let rres := restore_backup env.backupDirExists env.restoreErr
    { success := false, message := m,
      actions := a1 ++ [.statusChanged ("❌ Error aplicando update: " ++ m)] ++ rres.2,
      updateInfoAfter := env.updateInfo, tempDirAfter := true }
  | none =>
    let pacts := progressEvents env.entries.length
    let cres := cleanup_temp_files env.cleanupOk env.updateInfo
    let a2 := a1 ++ pacts ++ cres.2.2 ++
      [.statusChanged "✨ ¡Actualización aplicada con éxito!"]
    match cres.1 with
    | some info =>
      { success := true, message := info.remote_version, actions := a2,
        updateInfoAfter := some info, tempDirAfter := cres.2.1 }
    | none =>
      let m := fileNotFoundError UPDATE_INFO_FILE
      let rres := restore_backup env.backupDirExists env.restoreErr
      { success := false, message := m,
        actions := a2 ++ [.statusChanged ("❌ Error aplicando update: " ++ m)] ++ rres.2,
        updateInfoAfter := none, tempDirAfter := cres.2.1 }

/-- The environment of a fully successful update cycle: the pending-update
record exists (as written by the check phase), the archive has one entry
and every entry extracts, backup and cleanup succeed. -/
def goodCycleEnv : ApplyEnv :=
  { backupErr := none,
    entries := ["launcher.py"],
    extractErr := none,
    cleanupOk := true,
    updateInfo := some
      { remote_version := "0.0.8", changelog := "notas",
        download_url := "http://example/launcher_update.zip",
        files := ["launcher.py"], timestamp := 0 },
    backupDirExists := true,
    restoreErr := none }

/-- Claim C1, evaluated at the failing input: on a cycle where the download
succeeded and every archive entry extracts successfully, `apply_update`
does remove the temp directory and the pending-update record, but then
reports **failure** (with a file-not-found message), not success with the
new version string "0.0.8" — `cleanup_temp_files` deletes
`update_info.json` and line 243 re-opens it, so the read raises
`FileNotFoundError` and the handler even rolls back the freshly extracted
files. -/
theorem apply_update_success_cycle_reports_failure :
    (apply_update goodCycleEnv).updateInfoAfter = none ∧
    (apply_update goodCycleEnv).tempDirAfter = false ∧
    (apply_update goodCycleEnv).success = false ∧
    (apply_update goodCycleEnv).message = fileNotFoundError UPDATE_INFO_FILE ∧
    (apply_update goodCycleEnv).message ≠ "0.0.8" ∧
    Action.statusChanged "🔄 Restaurando desde copia de seguridad..." ∈
      (apply_update goodCycleEnv).actions := by
  decide

lemma restore_backup_emits_start (b : Bool) (r : Option String) :
    Action.statusChanged "🔄 Restaurando desde copia de seguridad..." ∈
      (restore_backup b r).2 := by
  cases r with
  | some m => simp [restore_backup]
  | none =>
    unfold restore_backup
    by_cases hb : b = true
    · rw [if_pos hb]
      simp
    · rw [if_neg hb]
      simp

/-- Claim C9: whenever a step inside `apply_update` raises (extraction
failing on a corrupt archive), `restore_backup` is invoked as best-effort
rollback, the run reports failure with the triggering error's message —
whatever the restore outcome — and a failure of the restore itself is
reported via a status emission without replacing the reported cause. -/
theorem apply_update_error_rollback (env : ApplyEnv) (m : String)
    (h : env.extractErr = some m) :
    (apply_update env).success = false ∧
    (apply_update env).message = m ∧
    Action.statusChanged "🔄 Restaurando desde copia de seguridad..." ∈
      (apply_update env).actions ∧
    (∀ rm, env.restoreErr = some rm →
      Action.statusChanged ("❌ Error en restauración: " ++ rm) ∈
        (apply_update env).actions) := by
  unfold apply_update
  rw [h]
  refine ⟨rfl, rfl, ?_, ?_⟩
  · simp only [List.mem_append]
    exact Or.inr (restore_backup_emits_start _ _)
  · intro rm hr
    rw [hr]
    simp [restore_backup, List.mem_append]

/-- Witness for C9 at a concrete input: extraction fails on a corrupt
archive and the restore itself also fails. -/
theorem apply_update_error_rollback_witness :
    (apply_update
      { backupErr := none, entries := [], extractErr := some "File is not a zip file",
        cleanupOk := true, updateInfo := none, backupDirExists := true,
        restoreErr := some "copy failed" }).message = "File is not a zip file" :=
  (apply_update_error_rollback
    { backupErr := none, entries := [], extractErr := some "File is not a zip file",
      cleanupOk := true, updateInfo := none, backupDirExists := true,
      restoreErr := some "copy failed" }
    "File is not a zip file" rfl).2.1

end Launcher
